import Mathlib

/-!
The function `mirror::Field::CreateFromArtField` of runtime/mirror/field-inl.h.

A shallow embedding of the reflective-field factory of the ART runtime and the
properties stated about it.

* Managed references (`ObjPtr<T>`, `Handle<T>`) are object identities; a null
  reference is `none`.  Handles only pin references across suspension points and
  are transparent here.
* `ArtField*` is the identity (address) of a native field descriptor; the
  accessors of `ArtField` and `mirror::Class` that the function calls are
  declared in headers outside this source file and are taken as parameters
  (`Env`).
* `field->ResolveType()` and `GetClassRoot<Field>()->AllocObject(self)` are
  collaborators with arbitrary effects on the runtime: they are parameters of
  type `Runtime → result × Runtime`.
* `DCHECK`s abort in debug builds only (`kIsDebugBuild`); an abort is an
  `Except.error`.
* The calls the function makes on the dex cache are recorded in its result
  (`Return.dex_cache_calls`), so that statements can say which calls were made.
* The template argument `kPointerSize` only selects the layout of the native
  arrays of the dex cache and is left out; indices and flags are `uint32_t`
  values held in `Nat`.
-/

namespace art

/-- Identity of a managed heap object. -/
abbrev ObjRef := Nat

/-- Identity of a `mirror::Class` object. -/
abbrev ClassRef := Nat

/-- Value of an `ArtField*`: the address of a native field descriptor. -/
abbrev ArtFieldPtr := Nat

/-- Identity of a `mirror::DexCache` object. -/
abbrev DexCacheRef := Nat

/-- A `mirror::Throwable` as far as the function looks at it: which object it is and
the descriptor of its class (`exception->GetClass()->DescriptorEquals(...)`). -/
structure Throwable where
  addr : Nat
  class_descriptor : String
  deriving DecidableEq, Repr

namespace mirror

/-- The instance fields of a `mirror::Field` object written by `CreateFromArtField`. -/
structure Field where
  type_ : Option ClassRef
  declaring_class_ : Option ClassRef
  access_flags_ : Nat
  art_field_index_ : Nat
  offset_ : Int
  deriving DecidableEq, Repr

end mirror

/-- The mutable state the function reads and writes: the pending exception of the
calling thread (`self`), the resolved-field tables of the dex caches, and the
`mirror::Field` objects of the heap. -/
structure Runtime where
  exception : Option Throwable
  resolved_fields : DexCacheRef → Nat → Option ArtFieldPtr
  heap : ObjRef → mirror.Field

/-- The ways a call can abort instead of returning. -/
inductive Fault where
  /-- The `self->AssertPendingException()` of line 55 with nothing pending -/
  | AssertPendingException
  /-- The `exception->GetClass()` of line 61 with `exception == nullptr` -/
  | NullExceptionDereference
  /-- The `self->AssertPendingOOMException()` of line 69 without a pending
  `OutOfMemoryError` -/
  | AssertPendingOOMException
  /-- The `DCHECK(field->IsStatic())` of line 75 -/
  | DCheckIsStatic
  /-- The `DCHECK_LT(dex_field_index, 2U)` of line 76 -/
  | DCheckProxyFieldIndex
  /-- The `DCHECK_EQ(resolved_field, field)` of line 82 -/
  | DCheckResolvedField
  /-- The `DCHECK(position != iter_range.end())` of line 100 -/
  | DCheckPosition
  deriving DecidableEq, Repr

/-- A call the function makes on `field->GetDexCache()`. -/
inductive DexCacheCall where
  | GetResolvedField (dex_cache : DexCacheRef) (field_idx : Nat)
  | SetResolvedField (dex_cache : DexCacheRef) (field_idx : Nat) (field : ArtFieldPtr)
  deriving DecidableEq, Repr

/-- The build configuration and the collaborators of `CreateFromArtField` that are
declared outside field-inl.h. -/
structure Env where
  /-- whether `DCHECK`s are compiled in -/
  kIsDebugBuild : Bool
  /-- Call `field->ResolveType()`: the resolved type or null, and the runtime it leaves -/
  ResolveType : ArtFieldPtr → Runtime → Option ClassRef × Runtime
  /-- Call `GetClassRoot<Field>()->AllocObject(self)`: the new object or null, and the
  runtime it leaves -/
  AllocObject : Runtime → Option ObjRef × Runtime
  /-- Call `field->GetDeclaringClass()` -/
  GetDeclaringClass : ArtFieldPtr → ClassRef
  /-- Call `field->GetDexCache()` -/
  GetDexCache : ArtFieldPtr → DexCacheRef
  /-- Call `field->GetDexFieldIndex()` -/
  GetDexFieldIndex : ArtFieldPtr → Nat
  /-- Call `field->GetAccessFlags()` -/
  GetAccessFlags : ArtFieldPtr → Nat
  /-- Call `field->GetOffset()`, the `uint32_t` inside the `MemberOffset` -/
  GetOffset : ArtFieldPtr → Nat
  /-- Call `field->IsStatic()` -/
  IsStatic : ArtFieldPtr → Bool
  /-- Call `klass->IsProxyClass()` -/
  IsProxyClass : ClassRef → Bool
  /-- Call `klass->GetSFields()`: the addresses of the elements of the static field array,
  in order -/
  GetSFields : ClassRef → List ArtFieldPtr
  /-- Call `klass->GetIFields()`: the addresses of the elements of the instance field
  array, in order -/
  GetIFields : ClassRef → List ArtFieldPtr

/-- The descriptor compared against at line 61. -/
def kOutOfMemoryErrorDescriptor : String := "Ljava/lang/OutOfMemoryError;"

/-- Modelled from the spec: `MemberOffset::Int32Value()` (offsets.h is not part of the
sources); the offset "as a 32-bit integer", i.e. the two's-complement reading of its
low 32 bits. -/
def MemberOffset.Int32Value (val : Nat) : Int :=
  if val % 2 ^ 32 < 2 ^ 31 then (val % 2 ^ 32 : Nat) else ((val % 2 ^ 32 : Nat) : Int) - 2 ^ 32

namespace Thread

/-- Modelled from the spec: `Thread::GetException()` (thread.h is not part of the
sources), the `get()` of the per-thread pending-exception channel. -/
def GetException (self : Runtime) : Option Throwable :=
  self.exception

/-- Modelled from the spec: `Thread::ClearException()`, the `clear()` of the
pending-exception channel. -/
def ClearException (self : Runtime) : Runtime :=
  { self with exception := none }

/-- Modelled from the spec: `Thread::AssertPendingException()`, the `assertPending()`
of the pending-exception channel; aborts when nothing is pending. -/
def AssertPendingException (self : Runtime) : Except Fault Unit :=
  match self.exception with
  | some _ => .ok ()
  | none => .error .AssertPendingException

/-- Modelled from the spec: `Thread::AssertPendingOOMException()`, the
`assertPendingOutOfMemory()` of the pending-exception channel; aborts unless an
`OutOfMemoryError` is pending. -/
def AssertPendingOOMException (self : Runtime) : Except Fault Unit :=
  match self.exception with
  | some e =>
    if e.class_descriptor = kOutOfMemoryErrorDescriptor then .ok ()
    else .error .AssertPendingOOMException
  | none => .error .AssertPendingOOMException

end Thread

namespace DexCache

/-- Modelled from the spec: `DexCache::GetResolvedField` (dex_cache-inl.h is not part
of the sources), the `lookup` of the resolution cache of §4.2: a table from field
index to descriptor. -/
def GetResolvedField (rt : Runtime) (dex_cache : DexCacheRef) (field_idx : Nat) :
    Option ArtFieldPtr :=
  rt.resolved_fields dex_cache field_idx

/-- Modelled from the spec: `DexCache::SetResolvedField`, the store inside the `insert`
of the resolution cache of §4.2 (the absent-or-identical test of `insert` is lines
81–83 of the caller): the table maps `field_idx` to `field` afterwards and is
unchanged at every other key. -/
def SetResolvedField (rt : Runtime) (dex_cache : DexCacheRef) (field_idx : Nat)
    (field : ArtFieldPtr) : Runtime :=
  { rt with resolved_fields := fun dc i =>
      if dc = dex_cache ∧ i = field_idx then some field else rt.resolved_fields dc i }

end DexCache

namespace mirror

/-- What a call that does not abort leaves behind: the returned reference (`none` is
`nullptr`), the runtime, and the calls made on the dex cache, in order. -/
structure Return where
  value : Option ObjRef
  runtime : Runtime
  dex_cache_calls : List DexCacheCall

/-- Where control stands after lines 48–66. -/
inductive Resolution where
  /-- one of the `return nullptr` of lines 57 and 62 was taken -/
  | returned (r : Return)
  /-- control reaches line 67 with this `type` handle and this runtime -/
  | proceed (type : Option ClassRef) (rt : Runtime)

namespace Field

/-- Method `Field::GetDeclaringClass()`, lines 32–34. -/
def GetDeclaringClass (rt : Runtime) (self : ObjRef) : Option ClassRef :=
  (rt.heap self).declaring_class_

/-- Method `Field::GetType()`, lines 40–42. -/
def GetType (rt : Runtime) (self : ObjRef) : Option ClassRef :=
  (rt.heap self).type_

/-- Write one `mirror::Field` object of the heap. -/
def store (rt : Runtime) (self : ObjRef) (f : mirror.Field → mirror.Field) : Runtime :=
  { rt with heap := fun o => if o = self then f (rt.heap o) else rt.heap o }

/-- Method `Field::SetType<false, false>`, lines 113–116: a plain store, nothing is
recorded in a transaction. -/
def SetType (rt : Runtime) (self : ObjRef) (type : Option ClassRef) : Runtime :=
  store rt self fun o => { o with type_ := type }

/-- Method `Field::SetDeclaringClass<false, false>`, lines 108–111. -/
def SetDeclaringClass (rt : Runtime) (self : ObjRef) (c : Option ClassRef) : Runtime :=
  store rt self fun o => { o with declaring_class_ := c }

/-- Method `Field::SetAccessFlags<false, false>` (declared in field.h). -/
def SetAccessFlags (rt : Runtime) (self : ObjRef) (access_flags : Nat) : Runtime :=
  store rt self fun o => { o with access_flags_ := access_flags }

/-- Method `Field::SetArtFieldIndex<false, false>` (declared in field.h). -/
def SetArtFieldIndex (rt : Runtime) (self : ObjRef) (idx : Nat) : Runtime :=
  store rt self fun o => { o with art_field_index_ := idx }

/-- Method `Field::SetOffset<false, false>` (declared in field.h). -/
def SetOffset (rt : Runtime) (self : ObjRef) (num_bytes : Int) : Runtime :=
  store rt self fun o => { o with offset_ := num_bytes }

/-- The field array scanned at lines 96–97. -/
def iter_range (env : Env) (field : ArtFieldPtr) : List ArtFieldPtr :=
  if env.IsStatic field then env.GetSFields (env.GetDeclaringClass field)
  else env.GetIFields (env.GetDeclaringClass field)

/-- Lines 98–102: `std::distance(begin, std::find_if(begin, end, &f == field))`;
the length of the range when no element is `field`. -/
def position (env : Env) (field : ArtFieldPtr) : Nat :=
  (iter_range env field).findIdx fun f => f == field

/-- Lines 48–66: resolve the type and decide what a null type means. -/
def CreateFromArtField.resolve (env : Env) (self : Runtime) (field : ArtFieldPtr)
    (force_resolve : Bool) : Except Fault Resolution :=
  let resolved := env.ResolveType field self
  let type := resolved.1
  let rt := resolved.2
  match type with
  | none =>
    if force_resolve then
      if env.kIsDebugBuild then
        match Thread.AssertPendingException rt with
        | .error f => .error f
        | .ok _ => .ok (.returned ⟨none, rt, []⟩)
      else
        .ok (.returned ⟨none, rt, []⟩)
    else
      match Thread.GetException rt with
      | none => .error .NullExceptionDereference
      | some exception =>
        if exception.class_descriptor = kOutOfMemoryErrorDescriptor then
          .ok (.returned ⟨none, rt, []⟩)
        else
          .ok (.proceed none (Thread.ClearException rt))
  | some t => .ok (.proceed (some t) rt)

/-- Lines 89–105: fill in the new object `ret` and return it. -/
def CreateFromArtField.populate (env : Env) (rt : Runtime) (ret : ObjRef)
    (field : ArtFieldPtr) (type : Option ClassRef) (calls : List DexCacheCall) :
    Except Fault Return :=
  let rt := SetType rt ret type
  let rt := SetDeclaringClass rt ret (some (env.GetDeclaringClass field))
  let rt := SetAccessFlags rt ret (env.GetAccessFlags field)
  let position := position env field
  if env.kIsDebugBuild && !(decide (position ≠ (iter_range env field).length)) then
    .error .DCheckPosition
  else
    let rt := SetArtFieldIndex rt ret position
    let rt := SetOffset rt ret (MemberOffset.Int32Value (env.GetOffset field))
    .ok ⟨some ret, rt, calls⟩

/-- Lines 67–105: allocate the object, reconcile the dex cache, populate. -/
def CreateFromArtField.allocate (env : Env) (self : Runtime) (field : ArtFieldPtr)
    (type : Option ClassRef) : Except Fault Return :=
  let allocated := env.AllocObject self
  let rt := allocated.2
  match allocated.1 with
  | none =>
    match Thread.AssertPendingOOMException rt with
    | .error f => .error f
    | .ok _ => .ok ⟨none, rt, []⟩
  | some ret =>
    let dex_field_index := env.GetDexFieldIndex field
    let dex_cache := env.GetDexCache field
    let resolved_field := DexCache.GetResolvedField rt dex_cache dex_field_index
    let lookup := DexCacheCall.GetResolvedField dex_cache dex_field_index
    if env.IsProxyClass (env.GetDeclaringClass field) then
      if env.kIsDebugBuild && !(env.IsStatic field) then
        .error .DCheckIsStatic
      else if env.kIsDebugBuild && !(decide (dex_field_index < 2)) then
        .error .DCheckProxyFieldIndex
      else
        CreateFromArtField.populate env rt ret field type [lookup]
    else
      match resolved_field with
      | some resolved =>
        if env.kIsDebugBuild && !(decide (resolved = field)) then
          .error .DCheckResolvedField
        else
          CreateFromArtField.populate env rt ret field type [lookup]
      | none =>
        CreateFromArtField.populate env
          (DexCache.SetResolvedField rt dex_cache dex_field_index field) ret field type
          [lookup, DexCacheCall.SetResolvedField dex_cache dex_field_index field]

/-- Method `Field::CreateFromArtField(self, field, force_resolve)`, lines 44–106. -/
def CreateFromArtField (env : Env) (self : Runtime) (field : ArtFieldPtr)
    (force_resolve : Bool) : Except Fault Return :=
  match CreateFromArtField.resolve env self field force_resolve with
  | .error f => .error f
  | .ok (.returned r) => .ok r
  | .ok (.proceed type rt) => CreateFromArtField.allocate env rt field type

end Field

end mirror

/-- What the debug assertions of lines 75, 76, 82 and 100 require of `field` when
control reaches line 72 with runtime `rt`. -/
def DChecksHold (env : Env) (rt : Runtime) (field : ArtFieldPtr) : Prop :=
  (if env.IsProxyClass (env.GetDeclaringClass field) then
      env.IsStatic field = true ∧ env.GetDexFieldIndex field < 2
    else
      ∀ f, DexCache.GetResolvedField rt (env.GetDexCache field) (env.GetDexFieldIndex field)
        = some f → f = field) ∧
  field ∈ mirror.Field.iter_range env field

/-- The footprint of the collaborators as far as the resolution cache goes (§6 lets
the resolver set a pending exception and the allocator fail with one): they leave the
resolved-field tables of the dex caches alone. -/
def PreservesResolvedFields (env : Env) : Prop :=
  (∀ field rt, (env.ResolveType field rt).2.resolved_fields = rt.resolved_fields) ∧
  (∀ rt, (env.AllocObject rt).2.resolved_fields = rt.resolved_fields)

/-- The resolver contract: a null type comes with a pending exception. -/
def ResolverRaisesOnNull (env : Env) : Prop :=
  ∀ field rt, (env.ResolveType field rt).1 = none →
    (env.ResolveType field rt).2.exception ≠ none

/-- The allocator contract: a null object comes with a pending `OutOfMemoryError`. -/
def AllocatorRaisesOOMOnNull (env : Env) : Prop :=
  ∀ rt, (env.AllocObject rt).1 = none →
    ∃ e, (env.AllocObject rt).2.exception = some e ∧
      e.class_descriptor = kOutOfMemoryErrorDescriptor

/-! ## Concrete runtimes and collaborators -/

namespace Example

/-- An `OutOfMemoryError` instance. -/
def oome : Throwable := ⟨900, "Ljava/lang/OutOfMemoryError;"⟩

/-- A `ClassNotFoundException` instance. -/
def cnfe : Throwable := ⟨901, "Ljava/lang/ClassNotFoundException;"⟩

/-- A runtime with nothing pending, empty dex caches and zeroed objects. -/
def rt0 : Runtime :=
  { exception := none
    resolved_fields := fun _ _ => none
    heap := fun _ => ⟨none, none, 0, 0, 0⟩ }

/-- A resolver that succeeds with class `t` and touches nothing. -/
def resolveTo (t : ClassRef) : ArtFieldPtr → Runtime → Option ClassRef × Runtime :=
  fun _ rt => (some t, rt)

/-- A resolver that fails and leaves `e` pending. -/
def resolveThrows (e : Throwable) : ArtFieldPtr → Runtime → Option ClassRef × Runtime :=
  fun _ rt => (none, { rt with exception := some e })

/-- An allocator that returns object `o` and touches nothing. -/
def allocAt (o : ObjRef) : Runtime → Option ObjRef × Runtime :=
  fun rt => (some o, rt)

/-- An allocator that fails and leaves an `OutOfMemoryError` pending. -/
def allocOOM : Runtime → Option ObjRef × Runtime :=
  fun rt => (none, { rt with exception := some oome })

/-- The value of `kAccPublic` (ACC_PUBLIC of the class-file format). -/
def kAccPublic : Nat := 0x0001

/-- The value of `kAccStatic` (ACC_STATIC of the class-file format). -/
def kAccStatic : Nat := 0x0008

/-- A world with two classes.  Class 7 is an ordinary class whose instance fields are
the descriptors 40..44 and whose static fields are 50 and 51; descriptor 43 is public,
at offset 12, with dex field index 9.  Class 8 is a proxy class whose static fields
are the descriptors 60 (interfaces) and 61 (throws), with dex field indices 0 and 1.
Descriptors from 60 on belong to class 8, and all use dex cache 3. -/
def world (debug : Bool) (resolve : ArtFieldPtr → Runtime → Option ClassRef × Runtime)
    (alloc : Runtime → Option ObjRef × Runtime) : Env :=
  { kIsDebugBuild := debug
    ResolveType := resolve
    AllocObject := alloc
    GetDeclaringClass := fun f => if f < 60 then 7 else 8
    GetDexCache := fun _ => 3
    GetDexFieldIndex := fun f => if f < 60 then f - 34 else f - 60
    GetAccessFlags := fun f => if f < 50 then kAccPublic else kAccPublic + kAccStatic
    GetOffset := fun f => if f < 50 then 4 * (f - 40) else 0
    IsStatic := fun f => decide (50 ≤ f)
    IsProxyClass := fun c => c == 8
    GetSFields := fun c => if c = 7 then [50, 51] else [60, 61]
    GetIFields := fun c => if c = 7 then [40, 41, 42, 43, 44] else [] }

end Example

end art

namespace art

open mirror mirror.Field

/-! ## Lemmas on the three parts of the function -/

theorem position_lt_length_iff (env : Env) (field : ArtFieldPtr) :
    position env field < (iter_range env field).length ↔ field ∈ iter_range env field := by
  unfold position
  rw [List.findIdx_lt_length]
  constructor
  · rintro ⟨x, hx, hp⟩
    have : x = field := by simpa using hp
    exact this ▸ hx
  · intro h
    exact ⟨field, h, by simp⟩

theorem position_ne_length_iff (env : Env) (field : ArtFieldPtr) :
    position env field ≠ (iter_range env field).length ↔ field ∈ iter_range env field := by
  rw [← position_lt_length_iff]
  have : position env field ≤ (iter_range env field).length := by
    unfold position
    exact List.findIdx_le_length _
  omega

/-- The runtime `populate` leaves when it does not abort. -/
theorem populate_ok_iff (env : Env) (rt : Runtime) (ret : ObjRef) (field : ArtFieldPtr)
    (type : Option ClassRef) (calls : List DexCacheCall) (r : Return) :
    CreateFromArtField.populate env rt ret field type calls = .ok r ↔
      (env.kIsDebugBuild = true → field ∈ iter_range env field) ∧
      r = ⟨some ret,
            SetOffset (SetArtFieldIndex (SetAccessFlags (SetDeclaringClass (SetType rt ret type)
              ret (some (env.GetDeclaringClass field))) ret (env.GetAccessFlags field)) ret
              (position env field)) ret (MemberOffset.Int32Value (env.GetOffset field)),
            calls⟩ := by
  unfold CreateFromArtField.populate
  have h := position_ne_length_iff env field
  by_cases hd : env.kIsDebugBuild = true
  · by_cases hm : field ∈ iter_range env field
    · have hp := h.2 hm
      simp [hd, hm, hp, eq_comm]
    · have hp : position env field = (iter_range env field).length := by
        by_contra hc
        exact hm (h.1 hc)
      simp [hd, hm, hp]
  · simp [hd, eq_comm]

/-- What `populate` returns when the debug assertion of line 100 holds. -/
theorem populate_returns (env : Env) (rt : Runtime) (ret : ObjRef) (field : ArtFieldPtr)
    (type : Option ClassRef) (calls : List DexCacheCall)
    (hd : env.kIsDebugBuild = true → field ∈ iter_range env field) :
    ∃ r, CreateFromArtField.populate env rt ret field type calls = .ok r ∧
      r.value = some ret ∧ r.dex_cache_calls = calls ∧
      r.runtime.exception = rt.exception ∧
      r.runtime.resolved_fields = rt.resolved_fields ∧
      r.runtime.heap ret = ⟨type, some (env.GetDeclaringClass field), env.GetAccessFlags field,
        position env field, MemberOffset.Int32Value (env.GetOffset field)⟩ ∧
      ∀ o, o ≠ ret → r.runtime.heap o = rt.heap o := by
  refine ⟨_, (populate_ok_iff env rt ret field type calls _).2 ⟨hd, rfl⟩, rfl, rfl, rfl, rfl, ?_, ?_⟩
  · simp [SetOffset, SetArtFieldIndex, SetAccessFlags, SetDeclaringClass, SetType, store]
  · intro o ho
    simp [SetOffset, SetArtFieldIndex, SetAccessFlags, SetDeclaringClass, SetType, store, ho]

/-- What lines 67–105 return when the allocator returns `ret` and the debug assertions
hold: the populated object, the calls on the dex cache and the cache they leave. -/
theorem allocate_returns_object (env : Env) (self : Runtime) (field : ArtFieldPtr)
    (type : Option ClassRef) (ret : ObjRef)
    (ha : (env.AllocObject self).1 = some ret)
    (hd : env.kIsDebugBuild = true → DChecksHold env (env.AllocObject self).2 field) :
    ∃ r, CreateFromArtField.allocate env self field type = .ok r ∧
      r.value = some ret ∧
      r.runtime.exception = (env.AllocObject self).2.exception ∧
      r.runtime.heap ret = ⟨type, some (env.GetDeclaringClass field), env.GetAccessFlags field,
        position env field, MemberOffset.Int32Value (env.GetOffset field)⟩ ∧
      (∀ o, o ≠ ret → r.runtime.heap o = (env.AllocObject self).2.heap o) ∧
      r.dex_cache_calls =
        DexCacheCall.GetResolvedField (env.GetDexCache field) (env.GetDexFieldIndex field) ::
          (if env.IsProxyClass (env.GetDeclaringClass field) = false ∧
              (env.AllocObject self).2.resolved_fields (env.GetDexCache field)
                (env.GetDexFieldIndex field) = none
            then [DexCacheCall.SetResolvedField (env.GetDexCache field)
                    (env.GetDexFieldIndex field) field]
            else []) ∧
      r.runtime.resolved_fields =
        (if env.IsProxyClass (env.GetDeclaringClass field) = false ∧
              (env.AllocObject self).2.resolved_fields (env.GetDexCache field)
                (env.GetDexFieldIndex field) = none
          then (DexCache.SetResolvedField (env.AllocObject self).2 (env.GetDexCache field)
                  (env.GetDexFieldIndex field) field).resolved_fields
          else (env.AllocObject self).2.resolved_fields) := by
  have hmem : env.kIsDebugBuild = true → field ∈ iter_range env field := fun h => (hd h).2
  unfold CreateFromArtField.allocate
  simp only [ha]
  by_cases hp : env.IsProxyClass (env.GetDeclaringClass field) = true
  · have h1 : (env.kIsDebugBuild && !env.IsStatic field) = false := by
      cases hdb : env.kIsDebugBuild with
      | false => rfl
      | true =>
        have := (hd hdb).1
        rw [if_pos hp] at this
        simp [this.1]
    have h2 : (env.kIsDebugBuild && !decide (env.GetDexFieldIndex field < 2)) = false := by
      cases hdb : env.kIsDebugBuild with
      | false => rfl
      | true =>
        have := (hd hdb).1
        rw [if_pos hp] at this
        simp [this.2]
    obtain ⟨r, hr, hv, hc, he, hrf, hh, ho⟩ := populate_returns env (env.AllocObject self).2 ret
      field type [DexCacheCall.GetResolvedField (env.GetDexCache field)
        (env.GetDexFieldIndex field)] hmem
    refine ⟨r, ?_, hv, he, hh, ho, ?_, ?_⟩
    · simp [hp, h1, h2, hr]
    · simp [hp, hc]
    · simp [hp, hrf]
  · have hp' : env.IsProxyClass (env.GetDeclaringClass field) = false := by
      simpa using hp
    cases hc : (env.AllocObject self).2.resolved_fields (env.GetDexCache field)
        (env.GetDexFieldIndex field) with
    | none =>
      obtain ⟨r, hr, hv, hcl, he, hrf, hh, ho⟩ := populate_returns env
        (DexCache.SetResolvedField (env.AllocObject self).2 (env.GetDexCache field)
          (env.GetDexFieldIndex field) field) ret field type
        [DexCacheCall.GetResolvedField (env.GetDexCache field) (env.GetDexFieldIndex field),
         DexCacheCall.SetResolvedField (env.GetDexCache field) (env.GetDexFieldIndex field)
           field] hmem
      refine ⟨r, ?_, hv, he, hh, ho, ?_, ?_⟩
      · simp [hp', DexCache.GetResolvedField, hc, hr]
      · simp [hp', hcl]
      · simp [hp', hrf]
    | some f =>
      have h1 : (env.kIsDebugBuild && !decide (f = field)) = false := by
        cases hdb : env.kIsDebugBuild with
        | false => rfl
        | true =>
          have := (hd hdb).1
          rw [if_neg hp] at this
          simp [this f (by simpa [DexCache.GetResolvedField] using hc)]
      obtain ⟨r, hr, hv, hcl, he, hrf, hh, ho⟩ := populate_returns env (env.AllocObject self).2
        ret field type [DexCacheCall.GetResolvedField (env.GetDexCache field)
          (env.GetDexFieldIndex field)] hmem
      refine ⟨r, ?_, hv, he, hh, ho, ?_, ?_⟩
      · simp [hp', DexCache.GetResolvedField, hc, h1, hr]
      · simp [hp', hcl]
      · simp [hp', hrf]

/-- Lines 67–105 return null when the allocator fails with an `OutOfMemoryError`. -/
theorem allocate_returns_null (env : Env) (self : Runtime) (field : ArtFieldPtr)
    (type : Option ClassRef) (e : Throwable)
    (ha : (env.AllocObject self).1 = none)
    (he : (env.AllocObject self).2.exception = some e)
    (hoom : e.class_descriptor = kOutOfMemoryErrorDescriptor) :
    CreateFromArtField.allocate env self field type = .ok ⟨none, (env.AllocObject self).2, []⟩ := by
  unfold CreateFromArtField.allocate
  simp [ha, Thread.AssertPendingOOMException, he, hoom]

/-- A null return of lines 67–105 is the allocator's failure. -/
theorem allocate_null_inv (env : Env) (self : Runtime) (field : ArtFieldPtr)
    (type : Option ClassRef) (r : Return)
    (h : CreateFromArtField.allocate env self field type = .ok r) (hv : r.value = none) :
    (env.AllocObject self).1 = none ∧ r.runtime = (env.AllocObject self).2 ∧
      r.dex_cache_calls = [] ∧
      ∃ e, (env.AllocObject self).2.exception = some e ∧
        e.class_descriptor = kOutOfMemoryErrorDescriptor := by
  cases ha : (env.AllocObject self).1 with
  | some ret =>
    exfalso
    unfold CreateFromArtField.allocate at h
    simp only [ha] at h
    have key : ∀ rt calls, CreateFromArtField.populate env rt ret field type calls = .ok r →
        False := by
      intro rt calls hpop
      have := ((populate_ok_iff env rt ret field type calls r).1 hpop).2
      rw [this] at hv
      simp at hv
    split at h
    · split at h
      · simp at h
      · split at h
        · simp at h
        · exact key _ _ h
    · split at h
      · split at h
        · simp at h
        · exact key _ _ h
      · exact key _ _ h
  | none =>
    unfold CreateFromArtField.allocate at h
    simp only [ha] at h
    cases hex : (env.AllocObject self).2.exception with
    | none => simp [Thread.AssertPendingOOMException, hex] at h
    | some e =>
      by_cases hoom : e.class_descriptor = kOutOfMemoryErrorDescriptor
      · simp [Thread.AssertPendingOOMException, hex, hoom] at h
        subst h
        exact ⟨rfl, rfl, rfl, e, rfl, hoom⟩
      · simp [Thread.AssertPendingOOMException, hex, hoom] at h

/-- A non-null return of lines 67–105 is the allocator's object, and in a debug build
the assertions held. -/
theorem allocate_object_inv (env : Env) (self : Runtime) (field : ArtFieldPtr)
    (type : Option ClassRef) (r : Return) (ret : ObjRef)
    (h : CreateFromArtField.allocate env self field type = .ok r) (hv : r.value = some ret) :
    (env.AllocObject self).1 = some ret ∧
      (env.kIsDebugBuild = true → DChecksHold env (env.AllocObject self).2 field) := by
  cases ha : (env.AllocObject self).1 with
  | none =>
    exfalso
    unfold CreateFromArtField.allocate at h
    simp only [ha] at h
    split at h
    · simp at h
    · simp at h
      rw [← h] at hv
      simp at hv
  | some ret' =>
    unfold CreateFromArtField.allocate at h
    simp only [ha] at h
    have key : ∀ rt calls, CreateFromArtField.populate env rt ret' field type calls = .ok r →
        ret' = ret ∧ (env.kIsDebugBuild = true → field ∈ iter_range env field) := by
      intro rt calls hpop
      have := (populate_ok_iff env rt ret' field type calls r).1 hpop
      rw [this.2] at hv
      exact ⟨by simpa using hv, this.1⟩
    unfold DChecksHold
    split at h
    · rename_i hp
      split at h
      · simp at h
      · rename_i h1
        split at h
        · simp at h
        · rename_i h2
          obtain ⟨e1, e2⟩ := key _ _ h
          refine ⟨by rw [e1], fun hdb => ⟨?_, e2 hdb⟩⟩
          rw [if_pos hp]
          simp [hdb] at h1 h2
          exact ⟨h1, h2⟩
    · rename_i hp
      split at h
      · rename_i f hf
        split at h
        · simp at h
        · rename_i h1
          obtain ⟨e1, e2⟩ := key _ _ h
          refine ⟨by rw [e1], fun hdb => ⟨?_, e2 hdb⟩⟩
          rw [if_neg hp]
          intro g hg
          rw [hf] at hg
          simp [hdb] at h1
          simp at hg
          rw [← hg, h1]
      · rename_i hf
        obtain ⟨e1, e2⟩ := key _ _ h
        refine ⟨by rw [e1], fun hdb => ⟨?_, e2 hdb⟩⟩
        rw [if_neg hp]
        intro g hg
        rw [hf] at hg
        simp at hg

/-- A non-null type goes on to line 67 with the runtime the resolver left. -/
theorem resolve_of_some (env : Env) (self : Runtime) (field : ArtFieldPtr) (force : Bool)
    (t : ClassRef) (h : (env.ResolveType field self).1 = some t) :
    CreateFromArtField.resolve env self field force =
      .ok (.proceed (some t) (env.ResolveType field self).2) := by
  unfold CreateFromArtField.resolve
  simp [h]

/-- An unforced failure with an `OutOfMemoryError` pending returns null at line 62. -/
theorem resolve_of_unforced_oom (env : Env) (self : Runtime) (field : ArtFieldPtr)
    (e : Throwable) (h : (env.ResolveType field self).1 = none)
    (he : (env.ResolveType field self).2.exception = some e)
    (hoom : e.class_descriptor = kOutOfMemoryErrorDescriptor) :
    CreateFromArtField.resolve env self field false =
      .ok (.returned ⟨none, (env.ResolveType field self).2, []⟩) := by
  unfold CreateFromArtField.resolve
  simp [h, Thread.GetException, he, hoom]

/-- An unforced failure with another exception pending clears it and goes on to line
67 with a null type. -/
theorem resolve_of_unforced_other (env : Env) (self : Runtime) (field : ArtFieldPtr)
    (e : Throwable) (h : (env.ResolveType field self).1 = none)
    (he : (env.ResolveType field self).2.exception = some e)
    (hoom : e.class_descriptor ≠ kOutOfMemoryErrorDescriptor) :
    CreateFromArtField.resolve env self field false =
      .ok (.proceed none (Thread.ClearException (env.ResolveType field self).2)) := by
  unfold CreateFromArtField.resolve
  simp [h, Thread.GetException, he, hoom]

/-- A forced failure returns null at line 57 unless the debug assertion of line 55
fails. -/
theorem resolve_of_forced (env : Env) (self : Runtime) (field : ArtFieldPtr)
    (h : (env.ResolveType field self).1 = none)
    (hd : env.kIsDebugBuild = true → (env.ResolveType field self).2.exception ≠ none) :
    CreateFromArtField.resolve env self field true =
      .ok (.returned ⟨none, (env.ResolveType field self).2, []⟩) := by
  unfold CreateFromArtField.resolve
  cases hdb : env.kIsDebugBuild with
  | false => simp [h, hdb]
  | true =>
    cases hex : (env.ResolveType field self).2.exception with
    | none => exact absurd hex (hd hdb)
    | some e => simp [h, hdb, Thread.AssertPendingException, hex]

/-- The two returns of lines 48–66: both return null, leave the runtime as the
resolver left it, and have not called the dex cache. -/
theorem resolve_returned_inv (env : Env) (self : Runtime) (field : ArtFieldPtr)
    (force : Bool) (r : Return)
    (h : CreateFromArtField.resolve env self field force = .ok (.returned r)) :
    r = ⟨none, (env.ResolveType field self).2, []⟩ ∧
      (env.ResolveType field self).1 = none ∧
      ((force = true ∧
          (env.kIsDebugBuild = true → (env.ResolveType field self).2.exception ≠ none)) ∨
        (force = false ∧ ∃ e, (env.ResolveType field self).2.exception = some e ∧
          e.class_descriptor = kOutOfMemoryErrorDescriptor)) := by
  unfold CreateFromArtField.resolve at h
  cases ht : (env.ResolveType field self).1 with
  | some t => simp [ht] at h
  | none =>
    simp only [ht] at h
    cases force with
    | true =>
      cases hdb : env.kIsDebugBuild with
      | false =>
        simp [hdb] at h
        exact ⟨h.symm, rfl, Or.inl ⟨rfl, by simp⟩⟩
      | true =>
        cases hex : (env.ResolveType field self).2.exception with
        | none => simp [hdb, Thread.AssertPendingException, hex] at h
        | some e =>
          simp [hdb, Thread.AssertPendingException, hex] at h
          exact ⟨h.symm, rfl, Or.inl ⟨rfl, by simp⟩⟩
    | false =>
      cases hex : (env.ResolveType field self).2.exception with
      | none => simp [Thread.GetException, hex] at h
      | some e =>
        by_cases hoom : e.class_descriptor = kOutOfMemoryErrorDescriptor
        · simp [Thread.GetException, hex, hoom] at h
          exact ⟨h.symm, rfl, Or.inr ⟨rfl, e, rfl, hoom⟩⟩
        · simp [Thread.GetException, hex, hoom] at h

/-- The two ways of reaching line 67: with the resolved type, or unforced with a null
type after clearing an exception that is not an `OutOfMemoryError`. -/
theorem resolve_proceed_inv (env : Env) (self : Runtime) (field : ArtFieldPtr)
    (force : Bool) (type : Option ClassRef) (rt : Runtime)
    (h : CreateFromArtField.resolve env self field force = .ok (.proceed type rt)) :
    type = (env.ResolveType field self).1 ∧
      ((type ≠ none ∧ rt = (env.ResolveType field self).2) ∨
        (type = none ∧ force = false ∧ rt = Thread.ClearException (env.ResolveType field self).2 ∧
          ∃ e, (env.ResolveType field self).2.exception = some e ∧
            e.class_descriptor ≠ kOutOfMemoryErrorDescriptor)) := by
  unfold CreateFromArtField.resolve at h
  cases ht : (env.ResolveType field self).1 with
  | some t =>
    simp [ht] at h
    exact ⟨h.1.symm, Or.inl ⟨by simp [← h.1], h.2.symm⟩⟩
  | none =>
    simp only [ht] at h
    cases force with
    | true =>
      cases hdb : env.kIsDebugBuild with
      | false => simp [hdb] at h
      | true =>
        cases hex : (env.ResolveType field self).2.exception with
        | none => simp [hdb, Thread.AssertPendingException, hex] at h
        | some e => simp [hdb, Thread.AssertPendingException, hex] at h
    | false =>
      cases hex : (env.ResolveType field self).2.exception with
      | none => simp [Thread.GetException, hex] at h
      | some e =>
        by_cases hoom : e.class_descriptor = kOutOfMemoryErrorDescriptor
        · simp [Thread.GetException, hex, hoom] at h
        · simp [Thread.GetException, hex, hoom] at h
          exact ⟨h.1.symm, Or.inr ⟨h.1.symm, rfl, h.2.symm, e, rfl, hoom⟩⟩

/-- The function is lines 67–105 whenever lines 48–66 go on. -/
theorem create_of_proceed (env : Env) (self : Runtime) (field : ArtFieldPtr) (force : Bool)
    (type : Option ClassRef) (rt : Runtime)
    (h : CreateFromArtField.resolve env self field force = .ok (.proceed type rt)) :
    CreateFromArtField env self field force = CreateFromArtField.allocate env rt field type := by
  unfold CreateFromArtField
  rw [h]

/-- The function returns what lines 48–66 return. -/
theorem create_of_returned (env : Env) (self : Runtime) (field : ArtFieldPtr) (force : Bool)
    (r : Return) (h : CreateFromArtField.resolve env self field force = .ok (.returned r)) :
    CreateFromArtField env self field force = .ok r := by
  unfold CreateFromArtField
  rw [h]

/-- A call that returns took one of the two returns of lines 48–66 or went through
lines 67–105. -/
theorem create_ok_inv (env : Env) (self : Runtime) (field : ArtFieldPtr) (force : Bool)
    (r : Return) (h : CreateFromArtField env self field force = .ok r) :
    CreateFromArtField.resolve env self field force = .ok (.returned r) ∨
      ∃ type rt, CreateFromArtField.resolve env self field force = .ok (.proceed type rt) ∧
        CreateFromArtField.allocate env rt field type = .ok r := by
  unfold CreateFromArtField at h
  split at h
  · simp at h
  · rename_i r' hr
    simp at h
    left
    rw [hr, h]
  · rename_i type rt hr
    right
    exact ⟨type, rt, hr, h⟩

/-- A call that returns an object went through lines 67–105. -/
theorem create_object_inv (env : Env) (self : Runtime) (field : ArtFieldPtr) (force : Bool)
    (r : Return) (ret : ObjRef)
    (h : CreateFromArtField env self field force = .ok r) (hv : r.value = some ret) :
    ∃ type rt, CreateFromArtField.resolve env self field force = .ok (.proceed type rt) ∧
      CreateFromArtField.allocate env rt field type = .ok r := by
  rcases create_ok_inv env self field force r h with hret | hpro
  · have := (resolve_returned_inv env self field force r hret).1
    rw [this] at hv
    simp at hv
  · exact hpro

/-- The facts of `allocate_returns_object` for any object that lines 67–105 return. -/
theorem allocate_object_facts (env : Env) (self : Runtime) (field : ArtFieldPtr)
    (type : Option ClassRef) (r : Return) (ret : ObjRef)
    (h : CreateFromArtField.allocate env self field type = .ok r) (hv : r.value = some ret) :
    r.runtime.exception = (env.AllocObject self).2.exception ∧
      r.runtime.heap ret = ⟨type, some (env.GetDeclaringClass field), env.GetAccessFlags field,
        position env field, MemberOffset.Int32Value (env.GetOffset field)⟩ ∧
      r.dex_cache_calls =
        DexCacheCall.GetResolvedField (env.GetDexCache field) (env.GetDexFieldIndex field) ::
          (if env.IsProxyClass (env.GetDeclaringClass field) = false ∧
              (env.AllocObject self).2.resolved_fields (env.GetDexCache field)
                (env.GetDexFieldIndex field) = none
            then [DexCacheCall.SetResolvedField (env.GetDexCache field)
                    (env.GetDexFieldIndex field) field]
            else []) ∧
      r.runtime.resolved_fields =
        (if env.IsProxyClass (env.GetDeclaringClass field) = false ∧
              (env.AllocObject self).2.resolved_fields (env.GetDexCache field)
                (env.GetDexFieldIndex field) = none
          then (DexCache.SetResolvedField (env.AllocObject self).2 (env.GetDexCache field)
                  (env.GetDexFieldIndex field) field).resolved_fields
          else (env.AllocObject self).2.resolved_fields) := by
  obtain ⟨ha, hd⟩ := allocate_object_inv env self field type r ret h hv
  obtain ⟨r', hr', _, he, hh, _, hc, hrf⟩ := allocate_returns_object env self field type ret ha hd
  have : r' = r := by
    rw [hr'] at h
    injection h
  subst this
  exact ⟨he, hh, hc, hrf⟩

/-- In a list of addresses that contains `a`, the index found by the scan of lines
98–99 holds `a` and no smaller index does. -/
theorem findIdx_beq_spec (a : ArtFieldPtr) (xs : List ArtFieldPtr) (h : a ∈ xs) :
    xs[xs.findIdx fun f => f == a]? = some a ∧
      ∀ j, j < (xs.findIdx fun f => f == a) → xs[j]? ≠ some a := by
  induction xs with
  | nil => simp at h
  | cons x xs ih =>
    rw [List.findIdx_cons]
    by_cases hx : x = a
    · subst hx
      simp
    · have hb : (x == a) = false := by simpa using hx
      have hm : a ∈ xs := by
        rcases List.mem_cons.1 h with h0 | h0
        · exact absurd h0.symm hx
        · exact h0
      obtain ⟨h1, h2⟩ := ih hm
      simp only [hb, cond_false]
      refine ⟨by simpa using h1, ?_⟩
      intro j hj
      cases j with
      | zero => simpa using hx
      | succ j => simpa using h2 j (by omega)

/-- Lines 48–66 write neither the dex caches nor the heap: where they go on, the
resolved-field tables are as the resolver left them. -/
theorem resolve_proceed_resolved_fields (env : Env) (self : Runtime) (field : ArtFieldPtr)
    (force : Bool) (type : Option ClassRef) (rt : Runtime)
    (h : CreateFromArtField.resolve env self field force = .ok (.proceed type rt)) :
    rt.resolved_fields = (env.ResolveType field self).2.resolved_fields := by
  rcases (resolve_proceed_inv env self field force type rt h).2 with ⟨_, hrt⟩ | ⟨_, _, hrt, _⟩
  · rw [hrt]
  · rw [hrt]
    rfl

/-- With collaborators that leave the resolved-field tables alone, a call that returns
null has made no call on the dex cache and leaves the tables as they were. -/
theorem create_null_cache (env : Env) (self : Runtime) (field : ArtFieldPtr) (force : Bool)
    (r : Return) (hframe : PreservesResolvedFields env)
    (h : CreateFromArtField env self field force = .ok r) (hv : r.value = none) :
    r.dex_cache_calls = [] ∧ r.runtime.resolved_fields = self.resolved_fields := by
  rcases create_ok_inv env self field force r h with hret | ⟨type, rt, hres, hal⟩
  · have := (resolve_returned_inv env self field force r hret).1
    rw [this]
    exact ⟨rfl, hframe.1 field self⟩
  · obtain ⟨_, hrt, hc, _⟩ := allocate_null_inv env rt field type r hal hv
    refine ⟨hc, ?_⟩
    rw [hrt, hframe.2 rt, resolve_proceed_resolved_fields env self field force type rt hres,
      hframe.1 field self]

/-- With collaborators that leave the resolved-field tables alone, a call that returns
an object has looked the field up once, and has stored it exactly when the class is not
a proxy class and the table had no entry at the field's index. -/
theorem create_object_cache (env : Env) (self : Runtime) (field : ArtFieldPtr) (force : Bool)
    (r : Return) (ret : ObjRef) (hframe : PreservesResolvedFields env)
    (h : CreateFromArtField env self field force = .ok r) (hv : r.value = some ret) :
    r.dex_cache_calls =
        DexCacheCall.GetResolvedField (env.GetDexCache field) (env.GetDexFieldIndex field) ::
          (if env.IsProxyClass (env.GetDeclaringClass field) = false ∧
              self.resolved_fields (env.GetDexCache field) (env.GetDexFieldIndex field) = none
            then [DexCacheCall.SetResolvedField (env.GetDexCache field)
                    (env.GetDexFieldIndex field) field]
            else []) ∧
      r.runtime.resolved_fields =
        (if env.IsProxyClass (env.GetDeclaringClass field) = false ∧
              self.resolved_fields (env.GetDexCache field) (env.GetDexFieldIndex field) = none
          then (DexCache.SetResolvedField self (env.GetDexCache field)
                  (env.GetDexFieldIndex field) field).resolved_fields
          else self.resolved_fields) := by
  obtain ⟨type, rt, hres, hal⟩ := create_object_inv env self field force r ret h hv
  obtain ⟨_, _, hc, hrf⟩ := allocate_object_facts env rt field type r ret hal hv
  have hsame : (env.AllocObject rt).2.resolved_fields = self.resolved_fields := by
    rw [hframe.2 rt, resolve_proceed_resolved_fields env self field force type rt hres,
      hframe.1 field self]
  rw [hsame] at hc hrf
  refine ⟨hc, ?_⟩
  rw [hrf]
  simp only [DexCache.SetResolvedField, hsame]

/-! ## The claims -/

open Example

/-- C1, as stated, fails: with `force_resolve = true` the type resolves to class 20 and
no exception is pending, yet the call returns null, because the allocation that follows
fails. -/
theorem forced_nonnull_iff_resolved_counterexample :
    ¬ ((∃ r ret, CreateFromArtField (world false (resolveTo 20) allocOOM) rt0 43 true = .ok r ∧
          r.value = some ret) ↔
        (((world false (resolveTo 20) allocOOM).ResolveType 43 rt0).1 ≠ none ∧
          ((world false (resolveTo 20) allocOOM).ResolveType 43 rt0).2.exception = none)) := by
  intro h
  obtain ⟨r, ret, hr, hv⟩ := h.2 ⟨by decide, by decide⟩
  have hnull : CreateFromArtField (world false (resolveTo 20) allocOOM) rt0 43 true =
      .ok ⟨none, (allocOOM rt0).2, []⟩ := rfl
  rw [hnull] at hr
  injection hr with hr
  rw [← hr] at hv
  simp at hv

/-- C1, amended: with `force_resolve = true` the call returns a non-null object if and
only if type resolution returns a non-null type, the allocation that follows returns a
non-null object and, in a debug build, the assertions of lines 75–100 hold. -/
theorem forced_nonnull_iff_resolved_and_allocated (env : Env) (self : Runtime)
    (field : ArtFieldPtr) :
    (∃ r ret, CreateFromArtField env self field true = .ok r ∧ r.value = some ret) ↔
      ∃ t ret, (env.ResolveType field self).1 = some t ∧
        (env.AllocObject (env.ResolveType field self).2).1 = some ret ∧
        (env.kIsDebugBuild = true →
          DChecksHold env (env.AllocObject (env.ResolveType field self).2).2 field) := by
  constructor
  · rintro ⟨r, ret, h, hv⟩
    rcases create_ok_inv env self field true r h with hret | ⟨type, rt, hres, hal⟩
    · have := (resolve_returned_inv env self field true r hret).1
      rw [this] at hv
      simp at hv
    · obtain ⟨htype, hcase⟩ := resolve_proceed_inv env self field true type rt hres
      rcases hcase with ⟨hne, hrt⟩ | ⟨_, hf, _⟩
      · obtain ⟨t, ht⟩ := Option.ne_none_iff_exists'.1 hne
        subst hrt
        obtain ⟨ha, hd⟩ := allocate_object_inv env _ field type r ret hal hv
        exact ⟨t, ret, by rw [← htype, ht], ha, hd⟩
      · simp at hf
  · rintro ⟨t, ret, ht, ha, hd⟩
    obtain ⟨r, hr, hv, _⟩ := allocate_returns_object env _ field (some t) ret ha hd
    refine ⟨r, ret, ?_, hv⟩
    rw [create_of_proceed env self field true (some t) _ (resolve_of_some env self field true t ht)]
    exact hr

/-- C2, as stated, fails: unforced, resolution fails with a `ClassNotFoundException`
pending, but the allocation that follows fails, so the call returns null and an
`OutOfMemoryError` is pending afterwards. -/
theorem unforced_suppressed_counterexample :
    ((world false (resolveThrows cnfe) allocOOM).ResolveType 43 rt0).1 = none ∧
      ((world false (resolveThrows cnfe) allocOOM).ResolveType 43 rt0).2.exception = some cnfe ∧
      cnfe.class_descriptor ≠ "Ljava/lang/OutOfMemoryError;" ∧
      ∃ r, CreateFromArtField (world false (resolveThrows cnfe) allocOOM) rt0 43 false = .ok r ∧
        r.value = none ∧ r.runtime.exception = some oome :=
  ⟨by decide, by decide, by decide, _, rfl, by decide, by decide⟩

/-- C2, amended: unforced, if resolution returns null with an exception pending whose
class is not `OutOfMemoryError`, and the allocation that follows returns an object
without leaving an exception pending (and, in a debug build, the assertions of lines
75–100 hold), then the call returns that object, its type field is null, and no
exception is pending afterwards. -/
theorem unforced_suppressed_returns_untyped (env : Env) (self : Runtime) (field : ArtFieldPtr)
    (e : Throwable) (ret : ObjRef)
    (hnull : (env.ResolveType field self).1 = none)
    (hexc : (env.ResolveType field self).2.exception = some e)
    (hne : e.class_descriptor ≠ "Ljava/lang/OutOfMemoryError;")
    (halloc : (env.AllocObject (Thread.ClearException (env.ResolveType field self).2)).1 =
      some ret)
    (hquiet : (env.AllocObject (Thread.ClearException (env.ResolveType field self).2)).2.exception
      = none)
    (hd : env.kIsDebugBuild = true → DChecksHold env
      (env.AllocObject (Thread.ClearException (env.ResolveType field self).2)).2 field) :
    ∃ r, CreateFromArtField env self field false = .ok r ∧ r.value = some ret ∧
      Thread.GetException r.runtime = none ∧ Field.GetType r.runtime ret = none := by
  obtain ⟨r, hr, hv, hex, hh, _⟩ := allocate_returns_object env _ field none ret halloc hd
  refine ⟨r, ?_, hv, ?_, ?_⟩
  · rw [create_of_proceed env self field false none _
      (resolve_of_unforced_other env self field e hnull hexc hne)]
    exact hr
  · rw [Thread.GetException, hex, hquiet]
  · rw [Field.GetType, hh]

/-- C2's amended statement at a concrete call: the resolver leaves a
`ClassNotFoundException`, the allocator returns object 1000. -/
theorem unforced_suppressed_returns_untyped_witness :
    ∃ r, CreateFromArtField (world true (resolveThrows cnfe) (allocAt 1000)) rt0 43 false = .ok r ∧
      r.value = some 1000 ∧ Thread.GetException r.runtime = none ∧
      Field.GetType r.runtime 1000 = none :=
  unforced_suppressed_returns_untyped (world true (resolveThrows cnfe) (allocAt 1000)) rt0 43
    cnfe 1000 rfl rfl (by decide) rfl rfl
    (fun _ => ⟨by simp [world, DexCache.GetResolvedField, allocAt, Thread.ClearException,
      resolveThrows, rt0], by decide⟩)

/-- C3: unforced, if resolution returns null with an exception pending whose class
descriptor is "Ljava/lang/OutOfMemoryError;", the call returns null and that same
exception is pending afterwards (the runtime is as the resolver left it). -/
theorem unforced_oom_returns_null (env : Env) (self : Runtime) (field : ArtFieldPtr)
    (e : Throwable)
    (hnull : (env.ResolveType field self).1 = none)
    (hexc : (env.ResolveType field self).2.exception = some e)
    (hoom : e.class_descriptor = "Ljava/lang/OutOfMemoryError;") :
    ∃ r, CreateFromArtField env self field false = .ok r ∧ r.value = none ∧
      Thread.GetException r.runtime = some e ∧ r.runtime = (env.ResolveType field self).2 :=
  ⟨_, create_of_returned env self field false _
      (resolve_of_unforced_oom env self field e hnull hexc hoom), rfl, hexc, rfl⟩

/-- C3 at a concrete call: the resolver leaves an `OutOfMemoryError`. -/
theorem unforced_oom_returns_null_witness :
    ∃ r, CreateFromArtField (world true (resolveThrows oome) (allocAt 1000)) rt0 43 false = .ok r ∧
      r.value = none ∧ Thread.GetException r.runtime = some oome ∧
      r.runtime = ((world true (resolveThrows oome) (allocAt 1000)).ResolveType 43 rt0).2 :=
  unforced_oom_returns_null (world true (resolveThrows oome) (allocAt 1000)) rt0 43 oome
    rfl rfl rfl

/-- C4: whatever `force_resolve` is, if control reaches the allocation of line 67 (with
runtime `rt`) and the allocator returns null with an `OutOfMemoryError` pending, the
call returns null and that exception is pending afterwards. -/
theorem allocation_failure_returns_null (env : Env) (self : Runtime) (field : ArtFieldPtr)
    (force : Bool) (type : Option ClassRef) (rt : Runtime) (e : Throwable)
    (hreach : CreateFromArtField.resolve env self field force = .ok (.proceed type rt))
    (ha : (env.AllocObject rt).1 = none)
    (he : (env.AllocObject rt).2.exception = some e)
    (hoom : e.class_descriptor = "Ljava/lang/OutOfMemoryError;") :
    ∃ r, CreateFromArtField env self field force = .ok r ∧ r.value = none ∧
      Thread.GetException r.runtime = some e :=
  ⟨_, (create_of_proceed env self field force type rt hreach).trans
      (allocate_returns_null env rt field type e ha he hoom), rfl, he⟩

/-- C4 at two concrete calls, one forced with a resolved type and one unforced after
a suppressed `ClassNotFoundException`: both return null with the allocator's
`OutOfMemoryError` pending. -/
theorem allocation_failure_returns_null_witness :
    (∃ r, CreateFromArtField (world true (resolveTo 20) allocOOM) rt0 43 true = .ok r ∧
      r.value = none ∧ Thread.GetException r.runtime = some oome) ∧
    (∃ r, CreateFromArtField (world true (resolveThrows cnfe) allocOOM) rt0 43 false = .ok r ∧
      r.value = none ∧ Thread.GetException r.runtime = some oome) :=
  ⟨allocation_failure_returns_null (world true (resolveTo 20) allocOOM) rt0 43 true (some 20) rt0
      oome rfl rfl rfl rfl,
   allocation_failure_returns_null (world true (resolveThrows cnfe) allocOOM) rt0 43 false none
      (Thread.ClearException (resolveThrows cnfe 43 rt0).2) oome rfl rfl rfl rfl⟩

/-- C5: if `field` occurs in the field sequence of its declaring class chosen by
`field->IsStatic()` (static fields if static, instance fields otherwise), then every
non-null object the call returns has an art-field-index that is smaller than the length
of that sequence, at which the sequence holds `field`, and below which it does not:
the zero-based position of `field`. -/
theorem art_field_index_is_position (env : Env) (self : Runtime) (field : ArtFieldPtr)
    (force : Bool) (r : Return) (ret : ObjRef) (fields : List ArtFieldPtr)
    (hfields : fields = if env.IsStatic field = true
      then env.GetSFields (env.GetDeclaringClass field)
      else env.GetIFields (env.GetDeclaringClass field))
    (hmem : field ∈ fields)
    (h : CreateFromArtField env self field force = .ok r) (hv : r.value = some ret) :
    (r.runtime.heap ret).art_field_index_ < fields.length ∧
      fields[(r.runtime.heap ret).art_field_index_]? = some field ∧
      ∀ j, j < (r.runtime.heap ret).art_field_index_ → fields[j]? ≠ some field := by
  obtain ⟨type, rt, _, hal⟩ := create_object_inv env self field force r ret h hv
  obtain ⟨_, hh, _⟩ := allocate_object_facts env rt field type r ret hal hv
  have hiter : iter_range env field = fields := by
    rw [hfields]
    rfl
  have hmem' : field ∈ iter_range env field := hiter ▸ hmem
  have hpos : (r.runtime.heap ret).art_field_index_ = position env field := by rw [hh]
  rw [hpos]
  have hlt := (position_lt_length_iff env field).2 hmem'
  have hspec := findIdx_beq_spec field (iter_range env field) hmem'
  rw [hiter] at hlt hspec
  have hp : position env field = fields.findIdx fun f => f == field := by
    unfold position
    rw [hiter]
  rw [hp]
  exact ⟨hp ▸ hlt, hspec.1, hspec.2⟩

/-- C5 at a concrete call: descriptor 43 is the fourth of the five instance fields of
class 7, and the object returned for it has art-field-index 3. -/
theorem art_field_index_is_position_witness :
    ∃ r, CreateFromArtField (world true (resolveTo 20) (allocAt 1000)) rt0 43 false = .ok r ∧
      r.value = some 1000 ∧ (r.runtime.heap 1000).art_field_index_ = 3 ∧
      ((r.runtime.heap 1000).art_field_index_ < [40, 41, 42, 43, 44].length ∧
        [40, 41, 42, 43, 44][(r.runtime.heap 1000).art_field_index_]? = some 43 ∧
        ∀ j, j < (r.runtime.heap 1000).art_field_index_ → [40, 41, 42, 43, 44][j]? ≠ some 43) :=
  ⟨_, rfl, rfl, rfl,
    art_field_index_is_position (world true (resolveTo 20) (allocAt 1000)) rt0 43 false _ 1000
      [40, 41, 42, 43, 44] rfl (by decide) rfl rfl⟩

/-- C6: if the type of `field` resolves to class `t` and the allocation that follows
returns `ret`, then every return of the call returns `ret` with type `t`, the declaring
class and the access flags of `field`, the position of `field` as art-field-index, and
the offset of `field` read as a 32-bit integer, which is the offset itself when it is
below 2^31; and the call does return when, in a debug build, the assertions of lines
75–100 hold. -/
theorem resolved_object_fields (env : Env) (self : Runtime) (field : ArtFieldPtr)
    (force : Bool) (t : ClassRef) (ret : ObjRef)
    (hres : (env.ResolveType field self).1 = some t)
    (ha : (env.AllocObject (env.ResolveType field self).2).1 = some ret) :
    (∀ r, CreateFromArtField env self field force = .ok r →
        r.value = some ret ∧
        Field.GetType r.runtime ret = some t ∧
        Field.GetDeclaringClass r.runtime ret = some (env.GetDeclaringClass field) ∧
        (r.runtime.heap ret).access_flags_ = env.GetAccessFlags field ∧
        (r.runtime.heap ret).art_field_index_ = position env field ∧
        (r.runtime.heap ret).offset_ = MemberOffset.Int32Value (env.GetOffset field) ∧
        (env.GetOffset field < 2 ^ 31 → (r.runtime.heap ret).offset_ = env.GetOffset field)) ∧
      ((env.kIsDebugBuild = true →
          DChecksHold env (env.AllocObject (env.ResolveType field self).2).2 field) →
        ∃ r, CreateFromArtField env self field force = .ok r) := by
  have hcreate := create_of_proceed env self field force (some t) _
    (resolve_of_some env self field force t hres)
  constructor
  · intro r h
    rw [hcreate] at h
    have hv : r.value = some ret := by
      cases hv : r.value with
      | none =>
        have := (allocate_null_inv env _ field (some t) r h hv).1
        rw [ha] at this
        simp at this
      | some ret' =>
        have := (allocate_object_inv env _ field (some t) r ret' h hv).1
        rw [ha] at this
        exact this.symm
    obtain ⟨_, hh, _⟩ := allocate_object_facts env _ field (some t) r ret h hv
    refine ⟨hv, ?_, ?_, ?_, ?_, ?_, ?_⟩
    · rw [Field.GetType, hh]
    · rw [Field.GetDeclaringClass, hh]
    · rw [hh]
    · rw [hh]
    · rw [hh]
    · intro hlt
      rw [hh]
      have h32 : env.GetOffset field % 2 ^ 32 = env.GetOffset field :=
        Nat.mod_eq_of_lt (by omega)
      simp only [MemberOffset.Int32Value, h32, hlt, if_true]
  · intro hd
    obtain ⟨r, hr, _⟩ := allocate_returns_object env _ field (some t) ret ha hd
    exact ⟨r, hcreate.trans hr⟩

/-- C6 at the call of the scenario: descriptor 43 is an instance field at offset 12
with flags PUBLIC at position 3 of the five instance fields of class 7, and its type
resolves to class 20. -/
theorem resolved_object_fields_witness :
    (world true (resolveTo 20) (allocAt 1000)).IsStatic 43 = false ∧
      (world true (resolveTo 20) (allocAt 1000)).GetIFields 7 = [40, 41, 42, 43, 44] ∧
      ∃ r, CreateFromArtField (world true (resolveTo 20) (allocAt 1000)) rt0 43 false = .ok r ∧
        r.value = some 1000 ∧
        Field.GetType r.runtime 1000 = some 20 ∧
        Field.GetDeclaringClass r.runtime 1000 = some 7 ∧
        (r.runtime.heap 1000).access_flags_ = kAccPublic ∧
        (r.runtime.heap 1000).art_field_index_ = 3 ∧
        (r.runtime.heap 1000).offset_ = 12 ∧
        ((12 : Nat) < 2 ^ 31 → (r.runtime.heap 1000).offset_ = (12 : Nat)) :=
  ⟨rfl, rfl, _, rfl,
    (resolved_object_fields (world true (resolveTo 20) (allocAt 1000)) rt0 43 false 20 1000
      rfl rfl).1 _ rfl⟩

/-- C9: if the resolver leaves an exception pending whenever it returns a null type and
the allocator leaves an `OutOfMemoryError` pending whenever it returns null, then
(1) every call that returns null ends with an exception pending, and the null is a
resolution failure (the runtime is as the resolver left it) or an allocation failure
(the runtime is as the allocator left it); (2) a resolution failure that is forced, or
that has an `OutOfMemoryError` pending, returns null; (3) an allocation failure returns
null. -/
theorem null_return_is_propagated_failure (env : Env) (self : Runtime) (field : ArtFieldPtr)
    (force : Bool) (hres : ResolverRaisesOnNull env) (hall : AllocatorRaisesOOMOnNull env) :
    (∀ r, CreateFromArtField env self field force = .ok r → r.value = none →
        Thread.GetException r.runtime ≠ none ∧
        (((env.ResolveType field self).1 = none ∧ r.runtime = (env.ResolveType field self).2) ∨
          ∃ type rt, CreateFromArtField.resolve env self field force = .ok (.proceed type rt) ∧
            (env.AllocObject rt).1 = none ∧ r.runtime = (env.AllocObject rt).2)) ∧
      ((env.ResolveType field self).1 = none →
        (force = true ∨ ∃ e, (env.ResolveType field self).2.exception = some e ∧
          e.class_descriptor = "Ljava/lang/OutOfMemoryError;") →
        ∃ r, CreateFromArtField env self field force = .ok r ∧ r.value = none) ∧
      (∀ type rt, CreateFromArtField.resolve env self field force = .ok (.proceed type rt) →
        (env.AllocObject rt).1 = none →
        ∃ r, CreateFromArtField env self field force = .ok r ∧ r.value = none) := by
  refine ⟨?_, ?_, ?_⟩
  · intro r h hv
    rcases create_ok_inv env self field force r h with hret | ⟨type, rt, hpro, hal⟩
    · obtain ⟨hr, hnull, _⟩ := resolve_returned_inv env self field force r hret
      rw [hr]
      exact ⟨hres field self hnull, Or.inl ⟨hnull, rfl⟩⟩
    · obtain ⟨ha, hrt, _, e, he, _⟩ := allocate_null_inv env rt field type r hal hv
      refine ⟨?_, Or.inr ⟨type, rt, hpro, ha, hrt⟩⟩
      rw [Thread.GetException, hrt, he]
      simp
  · intro hnull hcase
    cases force with
    | true =>
      exact ⟨_, create_of_returned env self field true _
        (resolve_of_forced env self field hnull fun _ => hres field self hnull), rfl⟩
    | false =>
      rcases hcase with hf | ⟨e, he, hoom⟩
      · simp at hf
      · exact ⟨_, create_of_returned env self field false _
          (resolve_of_unforced_oom env self field e hnull he hoom), rfl⟩
  · intro type rt hpro ha
    obtain ⟨e, he, hoom⟩ := hall rt ha
    exact ⟨_, (create_of_proceed env self field force type rt hpro).trans
      (allocate_returns_null env rt field type e ha he hoom), rfl⟩

/-- C9 at a concrete forced call: the resolver always fails with a
`ClassNotFoundException`, the allocator always fails with an `OutOfMemoryError`; the
call returns null with an exception pending. -/
theorem null_return_is_propagated_failure_witness :
    ResolverRaisesOnNull (world true (resolveThrows cnfe) allocOOM) ∧
      AllocatorRaisesOOMOnNull (world true (resolveThrows cnfe) allocOOM) ∧
      ∃ r, CreateFromArtField (world true (resolveThrows cnfe) allocOOM) rt0 43 true = .ok r ∧
        r.value = none ∧ Thread.GetException r.runtime ≠ none :=
  have hres : ResolverRaisesOnNull (world true (resolveThrows cnfe) allocOOM) := by
    intro field rt _
    simp [world, resolveThrows]
  have hall : AllocatorRaisesOOMOnNull (world true (resolveThrows cnfe) allocOOM) := by
    intro rt _
    exact ⟨oome, rfl, rfl⟩
  ⟨hres, hall, _, rfl, rfl,
    ((null_return_is_propagated_failure (world true (resolveThrows cnfe) allocOOM) rt0 43 true
      hres hall).1 _ rfl rfl).1⟩

/-- C10: for every call that returns: (1) if it returns null, it has made no call on
the dex cache and the runtime is exactly as the last collaborator it called left it
(the resolver, or the allocator), so that the resolution cache is as before the call
when the collaborators leave the resolved-field tables alone; (2) a `SetResolvedField`
is made only after lines 48–66 went on to the allocation and the allocation returned
the object the call returns, and it stores `field` at the field's own dex cache and
dex field index, where the lookup of line 73 found no entry; (3) when the collaborators
leave the resolved-field tables alone, the cache after the call differs from the cache
before at no other key, and not at all if it had an entry at that key. -/
theorem cache_written_only_after_success (env : Env) (self : Runtime) (field : ArtFieldPtr)
    (force : Bool) (r : Return)
    (h : CreateFromArtField env self field force = .ok r) :
    (r.value = none →
        r.dex_cache_calls = [] ∧
        (r.runtime = (env.ResolveType field self).2 ∨
          ∃ type rt, CreateFromArtField.resolve env self field force = .ok (.proceed type rt) ∧
            r.runtime = (env.AllocObject rt).2) ∧
        (PreservesResolvedFields env → r.runtime.resolved_fields = self.resolved_fields)) ∧
      (∀ dc i f, DexCacheCall.SetResolvedField dc i f ∈ r.dex_cache_calls →
        ∃ type rt ret,
          CreateFromArtField.resolve env self field force = .ok (.proceed type rt) ∧
          (env.AllocObject rt).1 = some ret ∧ r.value = some ret ∧
          dc = env.GetDexCache field ∧ i = env.GetDexFieldIndex field ∧ f = field ∧
          DexCache.GetResolvedField (env.AllocObject rt).2 dc i = none) ∧
      (PreservesResolvedFields env →
        (∀ dc i, ¬ (dc = env.GetDexCache field ∧ i = env.GetDexFieldIndex field) →
          r.runtime.resolved_fields dc i = self.resolved_fields dc i) ∧
        (DexCache.GetResolvedField self (env.GetDexCache field) (env.GetDexFieldIndex field)
            ≠ none →
          r.runtime.resolved_fields = self.resolved_fields)) := by
  cases hv : r.value with
  | none =>
    have hcalls : r.dex_cache_calls = [] ∧
        (r.runtime = (env.ResolveType field self).2 ∨
          ∃ type rt, CreateFromArtField.resolve env self field force = .ok (.proceed type rt) ∧
            r.runtime = (env.AllocObject rt).2) := by
      rcases create_ok_inv env self field force r h with hret | ⟨type, rt, hres, hal⟩
      · have := (resolve_returned_inv env self field force r hret).1
        rw [this]
        exact ⟨rfl, Or.inl rfl⟩
      · obtain ⟨_, hrt, hc, _⟩ := allocate_null_inv env rt field type r hal hv
        exact ⟨hc, Or.inr ⟨type, rt, hres, hrt⟩⟩
    refine ⟨fun _ => ⟨hcalls.1, hcalls.2,
      fun hframe => (create_null_cache env self field force r hframe h hv).2⟩, ?_, ?_⟩
    · intro dc i f hmem
      rw [hcalls.1] at hmem
      simp at hmem
    · intro hframe
      have hrf := (create_null_cache env self field force r hframe h hv).2
      exact ⟨fun dc i _ => by rw [hrf], fun _ => hrf⟩
  | some ret =>
    obtain ⟨type, rt, hpro, hal⟩ := create_object_inv env self field force r ret h hv
    obtain ⟨ha, _⟩ := allocate_object_inv env rt field type r ret hal hv
    obtain ⟨_, _, hc, _⟩ := allocate_object_facts env rt field type r ret hal hv
    refine ⟨fun hn => by simp at hn, ?_, ?_⟩
    · intro dc i f hmem
      rw [hc] at hmem
      by_cases hcond : env.IsProxyClass (env.GetDeclaringClass field) = false ∧
          (env.AllocObject rt).2.resolved_fields (env.GetDexCache field)
            (env.GetDexFieldIndex field) = none
      · rw [if_pos hcond] at hmem
        simp at hmem
        obtain ⟨e1, e2, e3⟩ := hmem
        subst e1 e2 e3
        exact ⟨type, rt, ret, hpro, ha, rfl, rfl, rfl, rfl, hcond.2⟩
      · rw [if_neg hcond] at hmem
        simp at hmem
    · intro hframe
      obtain ⟨_, hrf⟩ := create_object_cache env self field force r ret hframe h hv
      constructor
      · intro dc i hne
        rw [hrf]
        split
        · simp only [DexCache.SetResolvedField]
          rw [if_neg hne]
        · rfl
      · intro hpresent
        rw [hrf]
        have hcond : ¬ (env.IsProxyClass (env.GetDeclaringClass field) = false ∧
            self.resolved_fields (env.GetDexCache field) (env.GetDexFieldIndex field) = none) :=
          fun hc' => hpresent hc'.2
        rw [if_neg hcond]

/-- C10 at a concrete unforced call whose resolver fails with an `OutOfMemoryError`:
the call returns null, has made no call on the dex cache and leaves it as it was. -/
theorem cache_written_only_after_success_witness :
    ∃ r, CreateFromArtField (world true (resolveThrows oome) (allocAt 1000)) rt0 43 false = .ok r ∧
      r.value = none ∧ r.dex_cache_calls = [] ∧
      r.runtime.resolved_fields = rt0.resolved_fields :=
  ⟨_, rfl, rfl,
    ((cache_written_only_after_success (world true (resolveThrows oome) (allocAt 1000)) rt0 43
      false _ rfl).1 rfl).1,
    ((cache_written_only_after_success (world true (resolveThrows oome) (allocAt 1000)) rt0 43
      false _ rfl).1 rfl).2.2 ⟨fun _ _ => rfl, fun _ => rfl⟩⟩

end art
